import Mathlib

/-!
Verification development for the python reference agent in
src/sdks/python/client.py (space-battle-2).  The decision engine —
incremental world model, spatial queries and per-turn policy — is embedded
shallowly: Python dicts become insertion-ordered association lists, JSON
records become structures with Option fields for optional keys, and code
paths that raise at runtime (attribute lookups on names that do not exist,
subscripting None) are modelled as Except.error values carrying the Python
exception text.  random.choice is modelled by an injectable selection
function passed as a parameter.
-/

namespace SpaceBattle

/-- The four cardinal directions the client emits. -/
inductive Dir
  | N
  | S
  | E
  | W
deriving DecidableEq

/-- An inbound unit record from a unit_updates batch.  The resource key is
optional in the wire format, hence Option. -/
structure UnitData where
  id : Int
  player_id : Int
  x : Int
  y : Int
  type : String
  status : String
  health : Int
  resource : Option Int
deriving DecidableEq

/-- Embeds class Unit (client.py lines 26-45). -/
structure Unit where
  id : Int
  player_id : Int
  x : Int
  y : Int
  type : String
  status : String
  health : Int
  resource : Int
deriving DecidableEq

/-- Unit.__init__: resource defaults to 0 when the record omits it. -/
def Unit.init (unit_data : UnitData) : Unit :=
  { id := unit_data.id
    player_id := unit_data.player_id
    x := unit_data.x
    y := unit_data.y
    type := unit_data.type
    status := unit_data.status
    health := unit_data.health
    resource := unit_data.resource.getD 0 }

/-- Unit.update: overwrites x, y, status, health; resource falls back to the
previous value when omitted.  id, player_id and type are not touched. -/
def Unit.update (u : Unit) (unit_data : UnitData) : Unit :=
  { u with
    x := unit_data.x
    y := unit_data.y
    status := unit_data.status
    health := unit_data.health
    resource := unit_data.resource.getD u.resource }

/-- Unit.is_idle. -/
def Unit.is_idle (u : Unit) : Bool :=
  u.status == "idle"

/-- An element of a tile record's units list.  The source duck-types these
(it reads .id, .player_id, .x, .y on them), so we model exactly those
fields. -/
structure TileUnit where
  id : Int
  player_id : Int
  x : Int
  y : Int
deriving DecidableEq

/-- An inbound tile record from a tile_updates batch.  resources and units
keys are optional. -/
structure TileData where
  x : Int
  y : Int
  visible : Bool
  blocked : Bool
  resources : Option Int
  units : Option (List TileUnit)
deriving DecidableEq

/-- Embeds class Tile (client.py lines 48-61).  resources is Option Int
because Python stores None when the record omits the key. -/
structure Tile where
  x : Int
  y : Int
  visible : Bool
  blocked : Bool
  resources : Option Int
  units : List TileUnit
deriving DecidableEq

/-- Python truthiness of a stored resources attribute: None and 0 are
falsy. -/
def resourcesTruthy : Option Int → Bool
  | none => false
  | some n => n != 0

/-- Tile.__init__: resources defaults to None, units to the empty list. -/
def Tile.init (tile_data : TileData) : Tile :=
  { x := tile_data.x
    y := tile_data.y
    visible := tile_data.visible
    blocked := tile_data.blocked
    resources := tile_data.resources
    units := tile_data.units.getD [] }

/-- Tile.update (client.py lines 57-61): visible and blocked always
overwrite; resources and units fall back to the previous values when
omitted.  Note: World.update_tiles never calls this method. -/
def Tile.update (t : Tile) (tile_data : TileData) : Tile :=
  { t with
    visible := tile_data.visible
    blocked := tile_data.blocked
    resources := match tile_data.resources with
      | some r => some r
      | none => t.resources
    units := tile_data.units.getD t.units }

/-- Lookup in a Python dict keyed by unit id, modelled as an
insertion-ordered association list. -/
def lookupUnit : List (Int × Unit) → Int → Option Unit
  | [], _ => none
  | p :: rest, key => if p.1 = key then some p.2 else lookupUnit rest key

/-- Python dict assignment: replace the value in place when the key exists,
append at the end otherwise. -/
def setUnit : List (Int × Unit) → Int → Unit → List (Int × Unit)
  | [], key, v => [(key, v)]
  | p :: rest, key, v =>
    if p.1 = key then (key, v) :: rest else p :: setUnit rest key v

/-- Lookup in the coordinate-keyed tiles dict. -/
def lookupTile : List ((Int × Int) × Tile) → Int × Int → Option Tile
  | [], _ => none
  | p :: rest, key => if p.1 = key then some p.2 else lookupTile rest key

/-- Dict assignment for the tiles dict. -/
def setTile : List ((Int × Int) × Tile) → Int × Int → Tile →
    List ((Int × Int) × Tile)
  | [], key, v => [(key, v)]
  | p :: rest, key, v =>
    if p.1 = key then (key, v) :: rest else p :: setTile rest key v

/-- Embeds class World (client.py lines 64-91). -/
structure World where
  units_by_id : List (Int × Unit)
  tiles : List ((Int × Int) × Tile)
deriving DecidableEq

/-- One iteration of the loop in World.update_units: merge in place when the
id is known, construct and insert a new Unit otherwise. -/
def unitStep (l : List (Int × Unit)) (unit_data : UnitData) :
    List (Int × Unit) :=
  match lookupUnit l unit_data.id with
  | some u => setUnit l unit_data.id (u.update unit_data)
  | none => setUnit l unit_data.id (Unit.init unit_data)

/-- World.update_units. -/
def World.update_units (w : World) (unit_updates : List UnitData) : World :=
  { w with units_by_id := unit_updates.foldl unitStep w.units_by_id }

/-- World.update_tiles (client.py lines 77-80): every record constructs a
fresh Tile via Tile.__init__ and overwrites the dict entry; the merging
Tile.update method is never invoked. -/
def World.update_tiles (w : World) (tile_updates : List TileData) : World :=
  { w with tiles := (tile_updates.foldl
      (fun l tile_data => setTile l (tile_data.x, tile_data.y) (Tile.init tile_data))
      w.tiles) }

/-- World.get_tile. -/
def World.get_tile (w : World) (x y : Int) : Option Tile :=
  lookupTile w.tiles (x, y)

/-- World.get_adjacent_resource_tile: first adjacent tile (N, S, W, E scan
order) with truthy resources; the source returns on the first hit. -/
def World.get_adjacent_resource_tile (w : World) (u : Unit) : Option Tile :=
  let directions : List (Int × Int) := [(0, -1), (0, 1), (-1, 0), (1, 0)]
  directions.foldl
    (fun found d =>
      match found with
      | some t => some t
      | none =>
        match w.get_tile (u.x + d.1) (u.y + d.2) with
        | some tile => if resourcesTruthy tile.resources then some tile else none
        | none => none)
    none

/-- A command record.  CommandBuilder (client.py lines 94-104) can only
build MOVE and GATHER records, so these are the only shapes that can ever
appear in an emitted command list. -/
structure Command where
  command : String
  unit : Int
  dir : Dir
deriving DecidableEq

namespace CommandBuilder

def MOVE_COMMAND : String := "MOVE"

def GATHER_COMMAND : String := "GATHER"

/-- CommandBuilder.move. -/
def move (u : Unit) (direction : Dir) : Command :=
  { command := MOVE_COMMAND, unit := u.id, dir := direction }

/-- CommandBuilder.gather. -/
def gather (u : Unit) (direction : Dir) : Command :=
  { command := GATHER_COMMAND, unit := u.id, dir := direction }

end CommandBuilder

/-- The game_info payload: map dimensions plus per-type unit info, of which
process_updates keeps only the cost entries. -/
structure GameInfo where
  map_width : Int
  map_height : Int
  unit_info : List (String × Option Int)
deriving DecidableEq

/-- One inbound update message; each top-level key is optional. -/
structure Msg where
  game_info : Option GameInfo
  unit_updates : Option (List UnitData)
  tile_updates : Option (List TileData)
deriving DecidableEq

/-- Embeds class Game (client.py lines 107 onward).  unit_costs is Option
because the Python attribute only exists after a game_info message; the
source never reads it back. -/
structure Game where
  world : World
  base_location : Option (Int × Int)
  resources : Int
  map_width : Int
  map_height : Int
  unit_costs : Option (List (String × Int))

/-- Game.__init__. -/
def Game.init : Game :=
  { world := { units_by_id := [], tiles := [] }
    base_location := none
    resources := 0
    map_width := 0
    map_height := 0
    unit_costs := none }

/-- Game.manhattan_distance (the self parameter is unused in the source). -/
def manhattan_distance (x1 y1 x2 y2 : Int) : Nat :=
  (x2 - x1).natAbs + (y2 - y1).natAbs

/-- Game.is_adjacent.  The source ignores self and duck-types the second
argument (it is called with Tile objects and with enemy unit objects), so we
take the target coordinates directly. -/
def is_adjacent (u : Unit) (tx ty : Int) : Bool :=
  manhattan_distance u.x u.y tx ty == 1

/-- Game.is_in_range: per-type vision range (worker 2, scout 5, tank 2,
default 2); the self parameter is unused in the source. -/
def is_in_range (u : Unit) (tx ty : Int) : Bool :=
  let distance := manhattan_distance u.x u.y tx ty
  let r : Nat :=
    if u.type == "worker" then 2
    else if u.type == "scout" then 5
    else if u.type == "tank" then 2
    else 2
  decide (distance ≤ r)

/-- Game.get_direction_to_coordinates (dx and dy, the source's locals, are
inlined): if abs dx exceeds abs dy pick E or W by the sign of dx, otherwise
pick S or N by the sign of dy. -/
def get_direction_to_coordinates (u : Unit) (target_x target_y : Int) : Dir :=
  if (target_y - u.y).natAbs < (target_x - u.x).natAbs then
    (if 0 < target_x - u.x then Dir.E else Dir.W)
  else
    (if 0 < target_y - u.y then Dir.S else Dir.N)

/-- Game.get_direction_to_tile: same body as get_direction_to_coordinates
applied to the tile coordinates. -/
def get_direction_to_tile (u : Unit) (tile : Tile) : Dir :=
  if (tile.y - u.y).natAbs < (tile.x - u.x).natAbs then
    (if 0 < tile.x - u.x then Dir.E else Dir.W)
  else
    (if 0 < tile.y - u.y then Dir.S else Dir.N)

/-- The nested x-outer, y-inner grid scan used by Game.find_nearest_resource
and Game.find_nearest_enemy: range(map_width) times range(map_height). -/
def coordScan (w h : Int) : List (Int × Int) :=
  (List.range w.toNat).flatMap
    (fun x => (List.range h.toNat).map (fun y => ((x : Int), (y : Int))))

/-- Game.is_tile_blocked: the truthiness of tile and tile.blocked — an
unknown tile counts as not blocked. -/
def Game.is_tile_blocked (g : Game) (x y : Int) : Bool :=
  match g.world.get_tile x y with
  | none => false
  | some tile => tile.blocked

/-- Game.find_nearest_resource: scan every coordinate, keep the qualifying
tile at strictly smaller Manhattan distance than the best so far (earlier
scan positions win ties).  The running minimum starts at infinity, modelled
by the none state of the accumulator. -/
def Game.find_nearest_resource (g : Game) (u : Unit) : Option Tile :=
  ((coordScan g.map_width g.map_height).foldl
    (fun best xy =>
      match g.world.get_tile xy.1 xy.2 with
      | none => best
      | some tile =>
        if tile.visible && resourcesTruthy tile.resources
            && !(g.is_tile_blocked xy.1 xy.2) then
          let distance := manhattan_distance u.x u.y xy.1 xy.2
          match best with
          | none => some (tile, distance)
          | some (_, m) => if distance < m then some (tile, distance) else best
        else best)
    none).map (fun p => p.1)

/-- Game.can_afford: hardcoded local cost table (worker 100, scout 130,
tank 150); an unknown type compares against float infinity, which is always
false. -/
def Game.can_afford (g : Game) (unit_type : String) : Bool :=
  if unit_type = "worker" then decide (100 ≤ g.resources)
  else if unit_type = "scout" then decide (130 ≤ g.resources)
  else if unit_type = "tank" then decide (150 ≤ g.resources)
  else false

/-- Game.find_nearest_enemy: scan every coordinate; on a visible tile with a
non-empty units list, every listed unit is a candidate — there is no player
id filter — at the Manhattan distance of the tile (not of the unit). -/
def Game.find_nearest_enemy (g : Game) (u : Unit) : Option TileUnit :=
  ((coordScan g.map_width g.map_height).foldl
    (fun best xy =>
      match g.world.get_tile xy.1 xy.2 with
      | none => best
      | some tile =>
        if tile.visible && !tile.units.isEmpty then
          tile.units.foldl
            (fun b enemy =>
              let distance := manhattan_distance u.x u.y xy.1 xy.2
              match b with
              | none => some (enemy, distance)
              | some (_, m) => if distance < m then some (enemy, distance) else b)
            best
        else best)
    none).map (fun p => p.1)

/-- Game.find_nearest_worker: linear scan of the unit dict in insertion
order, keeping friendly-type workers other than the querying unit. -/
def Game.find_nearest_worker (g : Game) (u : Unit) : Option Unit :=
  (g.world.units_by_id.foldl
    (fun best p =>
      let other_unit := p.2
      if other_unit.type == "worker" && other_unit.id != u.id then
        let distance := manhattan_distance u.x u.y other_unit.x other_unit.y
        match best with
        | none => some (other_unit, distance)
        | some (_, m) => if distance < m then some (other_unit, distance) else best
      else best)
    none).map (fun p => p.1)

/-- The direction offsets of the exploration loop, in the dict-literal order
N, S, E, W. -/
def dirDelta : Dir → Int × Int
  | Dir.N => (0, -1)
  | Dir.S => (0, 1)
  | Dir.E => (1, 0)
  | Dir.W => (-1, 0)

/-- The unexplored-area weight of one direction in
Game.get_strategic_exploration_direction: look-ahead distances 1..3, adding
3 - distance for each in-bounds destination that is unknown or not
visible. -/
def explorationWeight (g : Game) (u : Unit) (d : Dir) : Int :=
  ([1, 2, 3] : List Int).foldl
    (fun w dist =>
      let x := u.x + (dirDelta d).1 * dist
      let y := u.y + (dirDelta d).2 * dist
      if 0 ≤ x ∧ x < g.map_width ∧ 0 ≤ y ∧ y < g.map_height then
        match g.world.get_tile x y with
        | none => w + (3 - dist)
        | some tile => if tile.visible then w else w + (3 - dist)
      else w)
    0

/-- Game.get_strategic_exploration_direction.  choose stands for
random.choice over the list of maximal-weight directions (in the dict order
N, S, E, W); scouts with a known base get 2 subtracted from the weight of
the direction toward the base. -/
def Game.get_strategic_exploration_direction (g : Game)
    (choose : List Dir → Dir) (u : Unit) : Dir :=
  let weight : Dir → Int := fun d =>
    let w0 := explorationWeight g u d
    if u.type == "scout" then
      match g.base_location with
      | some b => if get_direction_to_coordinates u b.1 b.2 = d then w0 - 2 else w0
      | none => w0
    else w0
  let dirs : List Dir := [Dir.N, Dir.S, Dir.E, Dir.W]
  let max_weight := (dirs.map weight).foldl max (weight Dir.N)
  let best_directions := dirs.filter (fun d => weight d == max_weight)
  choose best_directions

/-- The worker branch of Game.get_commands (lines 259-276), one worker at a
time.  A carrying worker with no known base subscripts None in the source
(self.base_location[0]), which raises TypeError; that abort is the error
case. -/
def Game.worker_command (g : Game) (choose : List Dir → Dir)
    (worker : Unit) : Except String Command :=
  if 0 < worker.resource then
    match g.base_location with
    | none => Except.error "TypeError: NoneType object is not subscriptable"
    | some b =>
      Except.ok (CommandBuilder.move worker
        (get_direction_to_coordinates worker b.1 b.2))
  else
    match g.find_nearest_resource worker with
    | some resource_tile =>
      if is_adjacent worker resource_tile.x resource_tile.y then
        Except.ok (CommandBuilder.gather worker
          (get_direction_to_tile worker resource_tile))
      else
        Except.ok (CommandBuilder.move worker
          (get_direction_to_tile worker resource_tile))
    | none =>
      Except.ok (CommandBuilder.move worker
        (g.get_strategic_exploration_direction choose worker))

/-- The worker loop: commands accumulate in order and the first raised
exception aborts the whole turn. -/
def workerCommands (g : Game) (choose : List Dir → Dir) :
    List Unit → Except String (List Command)
  | [] => Except.ok []
  | w :: rest =>
    match g.worker_command choose w with
    | Except.error e => Except.error e
    | Except.ok c =>
      match workerCommands g choose rest with
      | Except.error e => Except.error e
      | Except.ok cs => Except.ok (c :: cs)

/-- The patrol fallback of the tank branch: move toward the nearest friendly
worker when one exists, otherwise no command. -/
def Game.tank_patrol (g : Game) (tank : Unit) : List Command :=
  match g.find_nearest_worker tank with
  | some worker =>
    [CommandBuilder.move tank
      (get_direction_to_coordinates tank worker.x worker.y)]
  | none => []

/-- The tank branch of Game.get_commands (lines 284-298).  The source calls
CommandBuilder.melee and CommandBuilder.shoot, attributes that do not exist
on CommandBuilder, so both attack paths raise AttributeError; those aborts
are the error cases. -/
def Game.tank_command (g : Game) (tank : Unit) : Except String (List Command) :=
  match g.find_nearest_enemy tank with
  | some enemy =>
    if is_in_range tank enemy.x enemy.y then
      if is_adjacent tank enemy.x enemy.y then
        Except.error "AttributeError: type object CommandBuilder has no attribute melee"
      else
        Except.error "AttributeError: type object CommandBuilder has no attribute shoot"
    else Except.ok (g.tank_patrol tank)
  | none => Except.ok (g.tank_patrol tank)

/-- The tank loop, with the same abort-on-first-exception semantics as the
worker loop. -/
def tankCommands (g : Game) : List Unit → Except String (List Command)
  | [] => Except.ok []
  | t :: rest =>
    match g.tank_command t with
    | Except.error e => Except.error e
    | Except.ok cs =>
      match tankCommands g rest with
      | Except.error e => Except.error e
      | Except.ok cs' => Except.ok (cs ++ cs')

/-- The unit-creation chunk of Game.get_commands (lines 300-306).  Python
evaluates the conjuncts left to right: when the base is known and the unit
is affordable it next reads self.worker_count (resp. scout_count,
tank_count), attributes that are never assigned anywhere in the class, so
that path raises AttributeError; when the base is unknown or the unit is
unaffordable the condition short-circuits to False and nothing is emitted.
CommandBuilder.create does not exist either, so no CREATE record can ever be
built. -/
def Game.production_commands (g : Game) : Except String (List Command) :=
  if g.base_location.isSome && g.can_afford "worker" then
    Except.error "AttributeError: Game object has no attribute worker_count"
  else if g.base_location.isSome && g.can_afford "scout" then
    Except.error "AttributeError: Game object has no attribute scout_count"
  else if g.base_location.isSome && g.can_afford "tank" then
    Except.error "AttributeError: Game object has no attribute tank_count"
  else Except.ok []

/-- One idle bucket of the categorize loop at the top of Game.get_commands:
the single pass appending each idle unit to the bucket of its type is the
same as filtering the dict values (in insertion order) by idleness and
type, because the type tests of the loop are mutually exclusive. -/
def idleOfType (g : Game) (t : String) : List Unit :=
  (g.world.units_by_id.map Prod.snd).filter (fun u => u.is_idle && u.type == t)

/-- The scout chunk of Game.get_commands: every idle scout moves in its
exploration direction; this chunk can never raise. -/
def scoutCommands (g : Game) (choose : List Dir → Dir) : List Command :=
  (idleOfType g "scout").map
    (fun s => CommandBuilder.move s (g.get_strategic_exploration_direction choose s))

/-- Game.get_commands: categorize idle units in dict order, then run the
worker, scout, tank and production chunks in sequence, concatenating their
command lists; an exception in any chunk aborts the turn.  (The scout chunk
is pure, so hoisting it into the final concatenation preserves the source's
left-to-right evaluation.) -/
def Game.get_commands (g : Game) (choose : List Dir → Dir) :
    Except String (List Command) :=
  match workerCommands g choose (idleOfType g "worker") with
  | Except.error e => Except.error e
  | Except.ok wcs =>
    match tankCommands g (idleOfType g "tank") with
    | Except.error e => Except.error e
    | Except.ok tcs =>
      match g.production_commands with
      | Except.error e => Except.error e
      | Except.ok pcs =>
        Except.ok (wcs ++ (scoutCommands g choose ++ (tcs ++ pcs)))

/-- Game.process_updates (lines 219-240): fold the optional game_info,
unit_updates (with base tracking — the last base record in the batch wins)
and tile_updates into the session state, then compute the reply commands.
The JSON framing of the reply is outside the core and is not modelled; the
returned pair is the mutated state and the get_commands outcome. -/
def Game.process_updates (g : Game) (m : Msg) (choose : List Dir → Dir) :
    Game × Except String (List Command) :=
  let g1 :=
    match m.game_info with
    | some gi =>
      { g with
        map_width := gi.map_width
        map_height := gi.map_height
        unit_costs := some (gi.unit_info.filterMap
          (fun p => p.2.map (fun c => (p.1, c)))) }
    | none => g
  let g2 :=
    match m.unit_updates with
    | some batch =>
      let gw := { g1 with world := g1.world.update_units batch }
      { gw with base_location := (batch.foldl
          (fun b d => if d.type == "base" then some (d.x, d.y) else b)
          gw.base_location) }
    | none => g1
  let g3 :=
    match m.tile_updates with
    | some batch => { g2 with world := g2.world.update_tiles batch }
    | none => g2
  (g3, g3.get_commands choose)

/-- The session: a fresh Game processing a sequence of inbound messages
(the NetworkHandler loop), keeping only the state thread. -/
def Game.run (msgs : List Msg) (choose : List Dir → Dir) : Game :=
  msgs.foldl (fun g m => (g.process_updates m choose).1) Game.init

/-- A concrete deterministic stand-in for random.choice. -/
def chooseN : List Dir → Dir := fun _ => Dir.N

/-! Concrete inputs used by the claim theorems and witnesses. -/

/-- A full tile record at (0,0): resources 3, one unit on the tile. -/
def tdFullC1 : TileData :=
  { x := 0, y := 0, visible := true, blocked := false,
    resources := some 3, units := some [{ id := 9, player_id := 2, x := 0, y := 0 }] }

/-- A later record for the same coordinate that omits both optional
fields. -/
def tdPartialC1 : TileData :=
  { x := 0, y := 0, visible := true, blocked := true,
    resources := none, units := none }

/-- The world after the first tile update. -/
def worldC1 : World := World.update_tiles { units_by_id := [], tiles := [] } [tdFullC1]

/-- An idle worker carrying resources, used while no base is known. -/
def workerC2 : Unit :=
  { id := 1, player_id := 1, x := 2, y := 2, type := "worker",
    status := "idle", health := 10, resource := 5 }

/-- A session whose only unit is workerC2 and whose base is unknown. -/
def gameC2 : Game :=
  { world := { units_by_id := [(1, workerC2)], tiles := [] },
    base_location := none, resources := 0,
    map_width := 5, map_height := 5, unit_costs := none }

/-- An idle tank at (1,1). -/
def tankC3 : Unit :=
  { id := 1, player_id := 1, x := 1, y := 1, type := "tank",
    status := "idle", health := 10, resource := 0 }

/-- An enemy unit standing at (2,1), adjacent to the tank. -/
def enemyC3 : TileUnit := { id := 42, player_id := 2, x := 2, y := 1 }

/-- The visible tile holding enemyC3. -/
def tileC3 : Tile :=
  { x := 2, y := 1, visible := true, blocked := false,
    resources := none, units := [enemyC3] }

/-- A 3 by 3 session with the tank and the enemy tile. -/
def gameC3 : Game :=
  { world := { units_by_id := [(1, tankC3)], tiles := [((2, 1), tileC3)] },
    base_location := none, resources := 0,
    map_width := 3, map_height := 3, unit_costs := none }

/-- The game_info payload of claim C4: 10 by 10 map, worker cost 100. -/
def giC4 : GameInfo :=
  { map_width := 10, map_height := 10, unit_info := [("worker", some 100)] }

/-- The first appearance of the base, at (0,0). -/
def baseDataC4 : UnitData :=
  { id := 1, player_id := 1, x := 0, y := 0, type := "base",
    status := "idle", health := 100, resource := none }

/-- The scenario message of claim C4: game_info with a 10 by 10 map and a
worker cost of 100, plus the first appearance of the base. -/
def msgC4 : Msg :=
  { game_info := some giC4,
    unit_updates := some [baseDataC4],
    tile_updates := none }

/-- A stored unit used to exercise the in-place merge. -/
def unitC5 : Unit :=
  { id := 1, player_id := 1, x := 0, y := 0, type := "worker",
    status := "idle", health := 10, resource := 4 }

/-- A world already holding unitC5. -/
def worldC5 : World := { units_by_id := [(1, unitC5)], tiles := [] }

/-- An update record for the same id that omits the resource field (its
player_id differs on purpose: Unit.update never copies it). -/
def dataC5 : UnitData :=
  { id := 1, player_id := 9, x := 5, y := 5, type := "worker",
    status := "moving", health := 8, resource := none }

/-- An idle worker appearing at (5,5), used by the C6 witness message. -/
def workerDataC6 : UnitData :=
  { id := 2, player_id := 1, x := 5, y := 5, type := "worker",
    status := "idle", health := 10, resource := none }

/-- A message whose only effect is to introduce a base and an idle worker on
an otherwise unknown 10 by 10 map. -/
def msgC6 : Msg :=
  { game_info := some giC4,
    unit_updates := some [baseDataC4, workerDataC6],
    tile_updates := none }

/-- A worker fixed at (1,1), used to instantiate the direction rule. -/
def unitC7 : Unit :=
  { id := 3, player_id := 1, x := 1, y := 1, type := "worker",
    status := "idle", health := 10, resource := 0 }

/-- The idle worker of claim C8: carrying 5 resources at (3,3). -/
def workerC8 : Unit :=
  { id := 1, player_id := 1, x := 3, y := 3, type := "worker",
    status := "idle", health := 10, resource := 5 }

/-- The session of claim C8: base known at (0,0). -/
def gameC8 : Game :=
  { world := { units_by_id := [(1, workerC8)], tiles := [] },
    base_location := some (0, 0), resources := 0,
    map_width := 10, map_height := 10, unit_costs := none }

/-- The querying unit of claim C9. -/
def unitC9 : Unit :=
  { id := 7, player_id := 1, x := 0, y := 0, type := "worker",
    status := "idle", health := 10, resource := 0 }

/-- The querying unit itself, as listed on its own tile. -/
def tuC9 : TileUnit := { id := 7, player_id := 1, x := 0, y := 0 }

/-- The visible tile sharing the querying unit. -/
def tileC9 : Tile :=
  { x := 0, y := 0, visible := true, blocked := false,
    resources := none, units := [tuC9] }

/-- A 1 by 1 session where the only listed unit is the querier itself. -/
def gameC9 : Game :=
  { world := { units_by_id := [(7, unitC9)], tiles := [((0, 0), tileC9)] },
    base_location := none, resources := 0,
    map_width := 1, map_height := 1, unit_costs := none }

/-! Claim theorems. -/

/-- Claim C1 (code bug evaluation): a tile update omitting resources and
units does NOT retain the previous tile's values — World.update_tiles always
builds a fresh Tile, so the stored tile gets resources None and an empty
units list, while the uncalled Tile.update method would have retained the
previous values exactly as the claim describes. -/
theorem c1_tile_update_discards :
    (worldC1.update_tiles [tdPartialC1]).get_tile 0 0
      = some { x := 0, y := 0, visible := true, blocked := true,
               resources := none, units := [] }
  ∧ worldC1.get_tile 0 0
      = some { x := 0, y := 0, visible := true, blocked := false,
               resources := some 3,
               units := [{ id := 9, player_id := 2, x := 0, y := 0 }] }
  ∧ Tile.update (Tile.init tdFullC1) tdPartialC1
      = { x := 0, y := 0, visible := true, blocked := true,
          resources := some 3,
          units := [{ id := 9, player_id := 2, x := 0, y := 0 }] } :=
  ⟨rfl, rfl, rfl⟩

/-- Claim C2 (code bug evaluation): with an idle worker carrying resources
and no known base, the turn does not complete silently — the source
subscripts self.base_location, which is None, and the turn aborts with a
TypeError. -/
theorem c2_carrying_worker_without_base_aborts :
    gameC2.get_commands chooseN
      = Except.error "TypeError: NoneType object is not subscriptable" :=
  rfl

/-- Claim C3 (code bug evaluation): for an idle tank whose nearest visible
enemy is in range at Manhattan distance 1, no MELEE command is issued — the
source reaches the melee branch and then raises AttributeError because
CommandBuilder has no melee attribute. -/
theorem c3_adjacent_enemy_aborts :
    gameC3.get_commands chooseN
      = Except.error "AttributeError: type object CommandBuilder has no attribute melee"
  ∧ gameC3.find_nearest_enemy tankC3 = some enemyC3
  ∧ is_in_range tankC3 enemyC3.x enemyC3.y = true
  ∧ is_adjacent tankC3 enemyC3.x enemyC3.y = true :=
  ⟨rfl, rfl, rfl, rfl⟩

/-- Claim C4 (code bug evaluation): after the scenario game_info message
(10 by 10 map, worker cost 100, base discovered, no workers), the stockpile
is still 0 — process_updates never refreshes Game.resources — so can_afford
fails and the command list contains no CREATE worker command at all. -/
theorem c4_no_create_worker :
    ((Game.init.process_updates msgC4 chooseN).1).resources = 0
  ∧ ((Game.init.process_updates msgC4 chooseN).1).base_location = some (0, 0)
  ∧ ((Game.init.process_updates msgC4 chooseN).1).can_afford "worker" = false
  ∧ (Game.init.process_updates msgC4 chooseN).2 = Except.ok [] :=
  ⟨rfl, rfl, rfl, rfl⟩

/-- Claim C8 (counterexample): for the idle worker carrying resource 5 at
(3,3) with the base known at (0,0), the single command issued is MOVE with
direction N, so the claimed direction W is wrong at this input. -/
theorem c8_counterexample :
    gameC8.get_commands chooseN
      = Except.ok [CommandBuilder.move workerC8 Dir.N]
  ∧ Dir.N ≠ Dir.W :=
  ⟨rfl, by decide⟩

/-- Claim C8 (amended): in the same scenario the first command issued is a
MOVE whose direction is N, as resolved by
get_direction_to_coordinates((3,3),(0,0)) — whatever the random source
does. -/
theorem c8_amended_move_north (choose : List Dir → Dir) :
    gameC8.get_commands choose
      = Except.ok [CommandBuilder.move workerC8 Dir.N]
  ∧ get_direction_to_coordinates workerC8 0 0 = Dir.N :=
  ⟨rfl, rfl⟩

/-- Claim C9: find_nearest_enemy applies no player-id filter — in a world
state where the only visible tile lists the querying player's own unit (here
the querying unit itself), it returns that own unit. -/
theorem c9_returns_own_unit :
    gameC9.find_nearest_enemy unitC9 = some tuC9
  ∧ tuC9.player_id = unitC9.player_id
  ∧ tuC9.id = unitC9.id :=
  ⟨rfl, rfl, rfl⟩

/-- Claim C7: the direction computation follows the documented case split,
returns N for the degenerate (0,0) delta, and get_direction_to_tile is the
same computation applied to the tile coordinates. -/
theorem c7_direction_towards (u : Unit) (tx ty : Int) :
    (((ty - u.y).natAbs < (tx - u.x).natAbs → 0 < tx - u.x →
        get_direction_to_coordinates u tx ty = Dir.E)
  ∧ ((ty - u.y).natAbs < (tx - u.x).natAbs → tx - u.x < 0 →
        get_direction_to_coordinates u tx ty = Dir.W)
  ∧ ((tx - u.x).natAbs ≤ (ty - u.y).natAbs → 0 < ty - u.y →
        get_direction_to_coordinates u tx ty = Dir.S)
  ∧ ((tx - u.x).natAbs ≤ (ty - u.y).natAbs → ty - u.y ≤ 0 →
        get_direction_to_coordinates u tx ty = Dir.N)
  ∧ (tx - u.x = 0 → ty - u.y = 0 →
        get_direction_to_coordinates u tx ty = Dir.N))
  ∧ ∀ t : Tile, get_direction_to_tile u t = get_direction_to_coordinates u t.x t.y := by
  refine ⟨⟨?_, ?_, ?_, ?_, ?_⟩, fun t => rfl⟩ <;>
  · intro h1 h2
    unfold get_direction_to_coordinates
    split_ifs <;> first | rfl | omega

/-- Witness for C7 at the concrete input (1,1) toward (3,2): the E case
applies. -/
theorem c7_witness :
    ((2 - unitC7.y).natAbs < (3 - unitC7.x).natAbs ∧ 0 < 3 - unitC7.x)
  ∧ get_direction_to_coordinates unitC7 3 2 = Dir.E :=
  ⟨by decide, (c7_direction_towards unitC7 3 2).1.1 (by decide) (by decide)⟩

/-- Dict assignment stores the assigned value at its key. -/
theorem lookupUnit_setUnit_self (l : List (Int × Unit)) (key : Int) (v : Unit) :
    lookupUnit (setUnit l key v) key = some v := by
  induction l with
  | nil => simp [setUnit, lookupUnit]
  | cons p rest ih =>
    by_cases h : p.1 = key
    · simp [setUnit, h, lookupUnit]
    · simp [setUnit, h, lookupUnit, ih]

/-- Dict assignment leaves other keys untouched. -/
theorem lookupUnit_setUnit_ne (l : List (Int × Unit)) (k key : Int) (v : Unit)
    (h : k ≠ key) :
    lookupUnit (setUnit l k v) key = lookupUnit l key := by
  induction l with
  | nil => simp [setUnit, lookupUnit, h]
  | cons p rest ih =>
    by_cases hp : p.1 = k
    · simp [setUnit, lookupUnit, hp, h]
    · by_cases hq : p.1 = key
      · simp [setUnit, lookupUnit, hp, hq, Ne.symm h]
      · simp [setUnit, lookupUnit, hp, hq, ih]

/-- One unit record leaves the id and player_id of every stored unit
unchanged: a merge goes through Unit.update, which never writes them, and an
insert only touches a key that held nothing. -/
theorem unitStep_preserves (l : List (Int × Unit)) (d : UnitData) (key : Int)
    (u : Unit) (h : lookupUnit l key = some u) :
    ∃ u', lookupUnit (unitStep l d) key = some u'
      ∧ u'.id = u.id ∧ u'.player_id = u.player_id := by
  unfold unitStep
  by_cases hk : d.id = key
  · subst hk
    rw [h]
    exact ⟨u.update d, lookupUnit_setUnit_self l d.id (u.update d), rfl, rfl⟩
  · cases hl : lookupUnit l d.id with
    | none =>
      refine ⟨u, ?_, rfl, rfl⟩
      rw [lookupUnit_setUnit_ne l d.id key (Unit.init d) hk]
      exact h
    | some u0 =>
      refine ⟨u, ?_, rfl, rfl⟩
      rw [lookupUnit_setUnit_ne l d.id key (u0.update d) hk]
      exact h

/-- The whole batch fold preserves id and player_id of every stored unit. -/
theorem foldl_unitStep_preserves (batch : List UnitData) :
    ∀ (l : List (Int × Unit)) (key : Int) (u : Unit),
      lookupUnit l key = some u →
      ∃ u', lookupUnit (batch.foldl unitStep l) key = some u'
        ∧ u'.id = u.id ∧ u'.player_id = u.player_id := by
  induction batch with
  | nil => exact fun l key u h => ⟨u, h, rfl, rfl⟩
  | cons d rest ih =>
    intro l key u h
    obtain ⟨u1, h1, hid1, hpid1⟩ := unitStep_preserves l d key u h
    obtain ⟨u2, h2, hid2, hpid2⟩ := ih (unitStep l d) key u1 h1
    exact ⟨u2, h2, hid2.trans hid1, hpid2.trans hpid1⟩

/-- Claim C5: across every sequence of unit updates the in-place merge
preserves the stored unit's id and player_id, and an update record that
omits the resource field leaves the previous resource value in place. -/
theorem c5_merge_preserves_identity (w : World) (batch : List UnitData)
    (key : Int) (u : Unit) (h : lookupUnit w.units_by_id key = some u) :
    ((lookupUnit ((w.update_units batch).units_by_id) key).map Unit.id
        = some u.id
  ∧ (lookupUnit ((w.update_units batch).units_by_id) key).map Unit.player_id
        = some u.player_id)
  ∧ ∀ (v : Unit) (d : UnitData), d.resource = none →
      (Unit.update v d).resource = v.resource := by
  have hfold : (w.update_units batch).units_by_id
      = batch.foldl unitStep w.units_by_id := rfl
  obtain ⟨u', h', hid, hpid⟩ := foldl_unitStep_preserves batch w.units_by_id key u h
  refine ⟨⟨?_, ?_⟩, ?_⟩
  · rw [hfold, h']
    simp [hid]
  · rw [hfold, h']
    simp [hpid]
  · intro v d hd
    unfold Unit.update
    rw [hd]
    rfl

/-- Witness for C5: worldC5 holds unitC5 under key 1; after the batch
[dataC5] the stored id and player_id are unchanged, and the omitted resource
field keeps the old value. -/
theorem c5_witness :
    ((lookupUnit ((worldC5.update_units [dataC5]).units_by_id) 1).map Unit.id
        = some unitC5.id
  ∧ (lookupUnit ((worldC5.update_units [dataC5]).units_by_id) 1).map Unit.player_id
        = some unitC5.player_id)
  ∧ (Unit.update unitC5 dataC5).resource = unitC5.resource :=
  ⟨(c5_merge_preserves_identity worldC5 [dataC5] 1 unitC5 rfl).1,
   (c5_merge_preserves_identity worldC5 [dataC5] 1 unitC5 rfl).2 unitC5 dataC5 rfl⟩

/-- process_updates never writes Game.resources. -/
theorem process_updates_resources (g : Game) (m : Msg)
    (choose : List Dir → Dir) :
    ((g.process_updates m choose).1).resources = g.resources := by
  rcases m with ⟨gi, uu, tu⟩
  cases gi <;> cases uu <;> cases tu <;> rfl

/-- Over any message sequence the session stockpile stays at its initial
value 0. -/
theorem run_resources (msgs : List Msg) (choose : List Dir → Dir) :
    (Game.run msgs choose).resources = 0 := by
  suffices h : ∀ g : Game,
      (msgs.foldl (fun g m => (g.process_updates m choose).1) g).resources
        = g.resources by
    exact h Game.init
  intro g
  induction msgs generalizing g with
  | nil => rfl
  | cons m rest ih =>
    show (rest.foldl (fun g m => (g.process_updates m choose).1)
        ((g.process_updates m choose).1)).resources = g.resources
    rw [ih ((g.process_updates m choose).1), process_updates_resources]

/-- Claim C10: Game.resources still equals 0 after every turn —
process_updates never modifies it — and consequently can_afford is false for
worker, scout and tank on every turn. -/
theorem c10_stockpile_never_updated (msgs : List Msg)
    (choose : List Dir → Dir) :
    (Game.run msgs choose).resources = 0
  ∧ (∀ (g : Game) (m : Msg),
      ((g.process_updates m choose).1).resources = g.resources)
  ∧ (Game.run msgs choose).can_afford "worker" = false
  ∧ (Game.run msgs choose).can_afford "scout" = false
  ∧ (Game.run msgs choose).can_afford "tank" = false := by
  have hres := run_resources msgs choose
  refine ⟨hres, fun g m => process_updates_resources g m choose, ?_, ?_, ?_⟩ <;>
  · unfold Game.can_afford
    rw [hres]
    decide

/-- Every command the worker branch can successfully build is a MOVE or a
GATHER record, never a CREATE. -/
theorem worker_command_not_create (g : Game) (choose : List Dir → Dir)
    (w : Unit) (c : Command) (h : g.worker_command choose w = Except.ok c) :
    c.command ≠ "CREATE" := by
  unfold Game.worker_command at h
  split at h
  · split at h
    · cases h
    · cases h
      exact (by decide : ("MOVE" : String) ≠ "CREATE")
  · split at h
    · split at h
      · cases h
        exact (by decide : ("GATHER" : String) ≠ "CREATE")
      · cases h
        exact (by decide : ("MOVE" : String) ≠ "CREATE")
    · cases h
      exact (by decide : ("MOVE" : String) ≠ "CREATE")

/-- The patrol fallback only ever builds MOVE records. -/
theorem tank_patrol_not_create (g : Game) (t : Unit) :
    ∀ c ∈ g.tank_patrol t, c.command ≠ "CREATE" := by
  unfold Game.tank_patrol
  split
  · intro c hc
    rw [List.mem_singleton] at hc
    subst hc
    exact (by decide : ("MOVE" : String) ≠ "CREATE")
  · intro c hc
    cases hc

/-- Every command list the tank branch can successfully produce contains no
CREATE record. -/
theorem tank_command_not_create (g : Game) (t : Unit) (cs : List Command)
    (h : g.tank_command t = Except.ok cs) :
    ∀ c ∈ cs, c.command ≠ "CREATE" := by
  unfold Game.tank_command at h
  split at h
  · split at h
    · split at h
      · cases h
      · cases h
    · cases h
      exact tank_patrol_not_create g t
  · cases h
    exact tank_patrol_not_create g t

/-- The worker loop never produces a CREATE record. -/
theorem workerCommands_not_create (g : Game) (choose : List Dir → Dir) :
    ∀ (ws : List Unit) (cs : List Command),
      workerCommands g choose ws = Except.ok cs →
      ∀ c ∈ cs, c.command ≠ "CREATE" := by
  intro ws
  induction ws with
  | nil =>
    intro cs h
    cases h
    intro c hc
    cases hc
  | cons w rest ih =>
    intro cs h
    unfold workerCommands at h
    cases hw : g.worker_command choose w with
    | error e =>
      rw [hw] at h
      cases h
    | ok c0 =>
      rw [hw] at h
      cases hrest : workerCommands g choose rest with
      | error e =>
        rw [hrest] at h
        cases h
      | ok cs0 =>
        rw [hrest] at h
        cases h
        intro c hc
        rcases List.mem_cons.mp hc with rfl | hm
        · exact worker_command_not_create g choose w _ hw
        · exact ih cs0 hrest c hm

/-- The tank loop never produces a CREATE record. -/
theorem tankCommands_not_create (g : Game) :
    ∀ (ts : List Unit) (cs : List Command),
      tankCommands g ts = Except.ok cs →
      ∀ c ∈ cs, c.command ≠ "CREATE" := by
  intro ts
  induction ts with
  | nil =>
    intro cs h
    cases h
    intro c hc
    cases hc
  | cons t rest ih =>
    intro cs h
    unfold tankCommands at h
    cases ht : g.tank_command t with
    | error e =>
      rw [ht] at h
      cases h
    | ok cs1 =>
      rw [ht] at h
      cases hrest : tankCommands g rest with
      | error e =>
        rw [hrest] at h
        cases h
      | ok cs2 =>
        rw [hrest] at h
        cases h
        intro c hc
        rcases List.mem_append.mp hc with h1 | h2
        · exact tank_command_not_create g t cs1 ht c h1
        · exact ih cs2 hrest c h2

/-- The scout chunk only builds MOVE records. -/
theorem scoutCommands_not_create (g : Game) (choose : List Dir → Dir) :
    ∀ c ∈ scoutCommands g choose, c.command ≠ "CREATE" := by
  intro c hc
  unfold scoutCommands at hc
  obtain ⟨s, _, rfl⟩ := List.mem_map.mp hc
  exact (by decide : ("MOVE" : String) ≠ "CREATE")

/-- When the production chunk silently skips, a successful turn contains no
CREATE record at all. -/
theorem get_commands_no_create (g : Game) (choose : List Dir → Dir)
    (hprod : g.production_commands = Except.ok []) (cmds : List Command)
    (h : g.get_commands choose = Except.ok cmds) :
    ∀ c ∈ cmds, c.command ≠ "CREATE" := by
  unfold Game.get_commands at h
  cases hwc : workerCommands g choose (idleOfType g "worker") with
  | error e =>
    rw [hwc] at h
    cases h
  | ok wcs =>
    rw [hwc] at h
    cases htc : tankCommands g (idleOfType g "tank") with
    | error e =>
      rw [htc] at h
      cases h
    | ok tcs =>
      rw [htc] at h
      rw [hprod] at h
      cases h
      intro c hc
      rcases List.mem_append.mp hc with h1 | h23
      · exact workerCommands_not_create g choose _ wcs hwc c h1
      · rcases List.mem_append.mp h23 with h2 | h34
        · exact scoutCommands_not_create g choose c h2
        · rcases List.mem_append.mp h34 with h3 | h4
          · exact tankCommands_not_create g _ tcs htc c h3
          · cases h4

/-- A command list with no CREATE record filters down to the empty list on
the CREATE predicate. -/
theorem filter_create_eq_nil (cmds : List Command)
    (h : ∀ c ∈ cmds, c.command ≠ "CREATE") :
    cmds.filter (fun c => c.command == "CREATE") = [] := by
  induction cmds with
  | nil => rfl
  | cons c rest ih =>
    have hc : (c.command == "CREATE") = false := by
      have hne := h c (List.mem_cons_self c rest)
      simp [hne]
    simp [List.filter_cons, hc,
      ih (fun c' hc' => h c' (List.mem_cons_of_mem c hc'))]

/-- Claim C6: on every reachable turn, a successfully emitted command list
holds at most one CREATE record (in fact none — no CREATE is ever
affordable because the stockpile stays 0, and the no-funds case skips
production silently with no command and no error). -/
theorem c6_at_most_one_create (msgs : List Msg) (choose : List Dir → Dir)
    (cmds : List Command)
    (h : (Game.run msgs choose).get_commands choose = Except.ok cmds) :
    ((cmds.filter (fun c => c.command == "CREATE")).length ≤ 1
  ∧ ∀ c ∈ cmds, c.command ≠ "CREATE")
  ∧ (Game.run msgs choose).production_commands = Except.ok [] := by
  have hres := run_resources msgs choose
  have hw : (Game.run msgs choose).can_afford "worker" = false := by
    unfold Game.can_afford
    rw [hres]
    decide
  have hs : (Game.run msgs choose).can_afford "scout" = false := by
    unfold Game.can_afford
    rw [hres]
    decide
  have ht : (Game.run msgs choose).can_afford "tank" = false := by
    unfold Game.can_afford
    rw [hres]
    decide
  have hprod : (Game.run msgs choose).production_commands = Except.ok [] := by
    unfold Game.production_commands
    rw [hw, hs, ht]
    simp
  have hnc := get_commands_no_create (Game.run msgs choose) choose hprod cmds h
  refine ⟨⟨?_, hnc⟩, hprod⟩
  rw [filter_create_eq_nil cmds hnc]
  decide

/-- Witness for the amended C8 at the concrete random source chooseN. -/
theorem c8_amended_witness :
    gameC8.get_commands chooseN
      = Except.ok [CommandBuilder.move workerC8 Dir.N]
  ∧ get_direction_to_coordinates workerC8 0 0 = Dir.N :=
  c8_amended_move_north chooseN

/-- Witness for C10 on the concrete turn msgC4. -/
theorem c10_witness :
    (Game.run [msgC4] chooseN).resources = 0
  ∧ (Game.run [msgC4] chooseN).can_afford "worker" = false :=
  ⟨(c10_stockpile_never_updated [msgC4] chooseN).1,
   (c10_stockpile_never_updated [msgC4] chooseN).2.2.1⟩

/-- Witness for C6 on the concrete turn msgC6 (base plus one idle worker on
an unexplored 10 by 10 map): the emitted list is a single MOVE. -/
theorem c6_witness :
    ((([({ command := "MOVE", unit := 2, dir := Dir.N } : Command)]).filter
        (fun c => c.command == "CREATE")).length ≤ 1
  ∧ ∀ c ∈ [({ command := "MOVE", unit := 2, dir := Dir.N } : Command)],
      c.command ≠ "CREATE")
  ∧ (Game.run [msgC6] chooseN).production_commands = Except.ok [] :=
  c6_at_most_one_create [msgC6] chooseN
    [{ command := "MOVE", unit := 2, dir := Dir.N }] rfl

end SpaceBattle
